import Mathlib

/-!
Shallow embedding of the Observable async-state container of the
observable-playground repository, together with theorems settling the
frozen claims about it.

The embedding models the Observable class as a state record plus pure
transition functions returning the new state and a trace of effects
(underlying calls issued, events dispatched with the state snapshot a
listener would observe at dispatch time, per-call callback invocations).
JavaScript truthiness of data values is a parameter `truthy`; parameter
comparison (the JavaScript triple-equal between `params` and
`lastLoadedParams`) is modelled with decidable equality; the MOCKING
sentinel is a distinguished constructor of the `LastLoaded` type.
Promise resolution and rejection are modelled as separate transition
functions (`fetchResolve`, `fetchReject`) for the continuations the
`fetch` method installs; the `pending` field counts in-flight calls.
-/

namespace ObservablePlayground

/-- A row returned by the mock Rows API. -/
structure Row where
  name : String
deriving DecidableEq

/-- Value of the `lastLoadedParams` field when it is set: either the params
used by the last load, or the MOCKING sentinel string. -/
inductive LastLoaded (P : Type) where
  | param : P → LastLoaded P
  | mocking : LastLoaded P
deriving DecidableEq

/-- The state of one Observable instance: the public fields of the
Observable class, plus `pending` counting in-flight underlying calls. -/
structure Observable (R P E : Type) where
  data : Option R := none
  error : Option E := none
  isAwake : Bool := false
  isLoading : Bool := false
  isLazy : Bool := false
  params : Option P := none
  lastLoadedParams : Option (LastLoaded P) := none
  pending : Nat := 0
deriving DecidableEq

/-- The snapshot of an Observable that an event listener can read at the
moment an event is dispatched: exactly the fields the useObservable hook
mirrors into render state in its dataListener. -/
structure ObservableMeta (R E : Type) where
  data : Option R
  error : Option E
  isLoading : Bool
deriving DecidableEq

/-- Names of the events the Observable dispatches. -/
inductive EvName where
  | data : EvName
  | loading : EvName
  | error : EvName
deriving DecidableEq

/-- Effects produced by an operation, in order: an underlying asynchronous
call issued with the given params, an event dispatched (with the state
snapshot listeners observe at dispatch time, since dispatchEvent runs
listeners synchronously), or an invocation of a per-call callback. -/
inductive Eff (R P E : Type) where
  | call : Option P → Eff R P E
  | event : EvName → ObservableMeta R E → Eff R P E
  | cbInvoke : Option R → Eff R P E
deriving DecidableEq

variable {R P E : Type}

/-- JavaScript truthiness of an optional value: undefined is falsy, a
present value is as truthy as the parameter says. -/
def isTruthy (truthy : R → Bool) : Option R → Bool
  | some r => truthy r
  | none => false

/-- The listener-visible snapshot of the current state. -/
def Observable.meta (s : Observable R P E) : ObservableMeta R E :=
  ⟨s.data, s.error, s.isLoading⟩

/-- The triple-equal comparison between `this.params` and
`this.lastLoadedParams` in the load guard: undefined equals undefined,
params equal a stored param value of the same value, and nothing equals
the MOCKING sentinel. -/
def paramsEq [DecidableEq P] : Option P → Option (LastLoaded P) → Bool
  | none, none => true
  | some p, some (LastLoaded.param q) => decide (p = q)
  | _, _ => false

/-- Whether `lastLoadedParams` currently holds the MOCKING sentinel. -/
def isMocking : Option (LastLoaded P) → Bool
  | some LastLoaded.mocking => true
  | _ => false

/-- The underlying calls contained in an effect trace, in order. -/
def callsOf : List (Eff R P E) → List (Option P)
  | [] => []
  | Eff.call p :: es => p :: callsOf es
  | _ :: es => callsOf es

/-- The names of the events dispatched in an effect trace, in order. -/
def eventNames : List (Eff R P E) → List EvName
  | [] => []
  | Eff.event n _ :: es => n :: eventNames es
  | _ :: es => eventNames es

/-- A freshly constructed Observable: nothing loaded, not awake. -/
def Observable.fresh : Observable R P E := {}

/-- setParams: store the params to be used by the next load. -/
def Observable.setParams (p : P) (s : Observable R P E) : Observable R P E :=
  { s with params := some p }

/-- setData: seed the data state externally; mark the instance awake when
the argument is truthy; always dispatch a data event synchronously, with
listeners observing the updated data. -/
def Observable.setData (truthy : R → Bool) (d : Option R) (s : Observable R P E) :
    Observable R P E × List (Eff R P E) :=
  let s1 : Observable R P E :=
    { s with isAwake := if isTruthy truthy d then true else s.isAwake, data := d }
  (s1, [Eff.event EvName.data s1.meta])

/-- The synchronous part of the protected fetch method: reassign params
and issue the underlying asynchronous call (incrementing the in-flight
count); the continuations are modelled by fetchResolve and fetchReject. -/
def Observable.fetch (p : Option P) (s : Observable R P E) :
    Observable R P E × List (Eff R P E) :=
  let s1 : Observable R P E := { s with params := p, pending := s.pending + 1 }
  (s1, [Eff.call p])

/-- The then-continuation installed by fetch, run when the underlying call
resolves with result data `res`: setData (which dispatches the data event),
then clear the error, then clear the loading flag, then invoke the
per-call callback when one was supplied. -/
def Observable.fetchResolve (truthy : R → Bool) (hasCb : Bool) (res : Option R)
    (s : Observable R P E) : Observable R P E × List (Eff R P E) :=
  let r1 := Observable.setData truthy res s
  let s2 : Observable R P E :=
    { r1.1 with error := none, isLoading := false, pending := s.pending - 1 }
  (s2, r1.2 ++ if hasCb then [Eff.cbInvoke res] else [])

/-- The catch-continuation installed by fetch, run when the underlying call
rejects with `err`: store the error, clear the loading flag, dispatch the
error event. -/
def Observable.fetchReject (err : E) (s : Observable R P E) :
    Observable R P E × List (Eff R P E) :=
  let s1 : Observable R P E :=
    { s with error := some err, isLoading := false, pending := s.pending - 1 }
  (s1, [Eff.event EvName.error s1.meta])

/-- load: drop the call while a load is in flight; mark awake; skip when
not forced and params are unchanged since the last load, or when mocking
(replaying cached data to the callback when mocking with truthy data);
otherwise record params as last loaded, clear the error, set the loading
flag, dispatch the loading event, and issue the underlying call. -/
def Observable.load [DecidableEq P] (truthy : R → Bool) (reload : Bool)
    (hasCb : Bool) (s : Observable R P E) : Observable R P E × List (Eff R P E) :=
  if s.isLoading then (s, [])
  else
    let s1 : Observable R P E := { s with isAwake := true }
    if (!reload && paramsEq s1.params s1.lastLoadedParams) || isMocking s1.lastLoadedParams then
      if isMocking s1.lastLoadedParams && isTruthy truthy s1.data then
        (s1, if hasCb then [Eff.cbInvoke s1.data] else [])
      else (s1, [])
    else
      let s2 : Observable R P E :=
        { s1 with lastLoadedParams := s1.params.map LastLoaded.param,
                  error := none, isLoading := true }
      let r := Observable.fetch s2.params s2
      (r.1, Eff.event EvName.loading s2.meta :: r.2)

/-- reload: alias for load with reload forced and no callback. -/
def Observable.reloadOp [DecidableEq P] (truthy : R → Bool) (s : Observable R P E) :
    Observable R P E × List (Eff R P E) :=
  Observable.load truthy true false s

/-- awaken: idempotent first-load trigger; fires a forced load only when
the instance is not yet awake. -/
def Observable.awaken [DecidableEq P] (truthy : R → Bool) (s : Observable R P E) :
    Observable R P E × List (Eff R P E) :=
  if s.isAwake then (s, []) else Observable.load truthy true false s

/-- refetch: record current params as last loaded and fetch directly,
without touching the loading flag and without dispatching any event. -/
def Observable.refetch (s : Observable R P E) :
    Observable R P E × List (Eff R P E) :=
  let s1 : Observable R P E := { s with lastLoadedParams := s.params.map LastLoaded.param }
  Observable.fetch s1.params s1

/-- Message thrown by the ensured accessor before the instance is awake. -/
def msgNotAwake : String := "Loading has not yet started for this observable"

/-- Message thrown by the ensured accessor when data is not ready. -/
def msgNotReady : String :=
  "Attempting to ensure data is available in an observable, but the observable is not ready"

/-- ensured: throw before the instance is awake, throw when the data slot
is not truthy, and otherwise return the instance itself unchanged. -/
def Observable.ensured (truthy : R → Bool) (s : Observable R P E) :
    Except String (Observable R P E) :=
  if !s.isAwake then Except.error msgNotAwake
  else if !isTruthy truthy s.data then Except.error msgNotReady
  else Except.ok s

/-- Suffix of the message thrown by updateObservable for an unknown name. -/
def msgNotRegistered : String := " is not a current observable and cannot be updated"

/-- Lookup in the named-observable registry (the NAMED_OBSERVABLES record),
modelled as an association list with record semantics. -/
def lookupNamed (reg : List (String × Observable R P E)) (name : String) :
    Option (Observable R P E) :=
  (reg.find? (fun e => e.1 == name)).map Prod.snd

/-- updateObservable: when the name is registered, call setData on the
registered instance; otherwise throw. Returns the updated registry and
the effects of the setData call. -/
def updateObservable (truthy : R → Bool) (reg : List (String × Observable R P E))
    (name : String) (d : Option R) :
    Except String (List (String × Observable R P E) × List (Eff R P E)) :=
  match lookupNamed reg name with
  | some s =>
      let r := Observable.setData truthy d s
      Except.ok (reg.map (fun e => if e.1 = name then (e.1, r.1) else e), r.2)
  | none => Except.error (name ++ msgNotRegistered)

/-! Helper lemmas shared by the claim theorems. -/

theorem paramsEq_map_param [DecidableEq P] (p : Option P) :
    paramsEq p (p.map LastLoaded.param) = true := by
  cases p <;> simp [paramsEq]

theorem isMocking_map_param (p : Option P) :
    isMocking (p.map LastLoaded.param) = false := by
  cases p <;> simp [isMocking]

/-! Concrete instantiation used by witnesses and counterexamples: the
repository instantiates the Observable at row lists for data (JavaScript
arrays are truthy), request objects for params (modelled by Nat ids), and
a cause string for errors. -/

/-- Truthiness of a row-list data value: a JavaScript array is truthy. -/
def cTruthy : List Row → Bool := fun _ => true

/-- Concrete Observable instantiation for witnesses. -/
abbrev CObservable := Observable (List Row) Nat String

/-- Name of the first mock row. -/
def rowName1 : String := "row-1"

/-- Name of the second mock row. -/
def rowName2 : String := "row-2"

/-- The rows the mock Rows API resolves with. -/
def cNewRows : List Row := [{ name := rowName1 }, { name := rowName2 }]

/-- The cause string the mock Rows API rejects with. -/
def cCause : String := "This is an error"

/-- A fresh instance whose params have been set. -/
def cFreshParams : CObservable := { params := some 1 }

/-- An instance with a load in flight. -/
def cLoading : CObservable :=
  { isAwake := true, isLoading := true, params := some 2,
    lastLoadedParams := some (LastLoaded.param 2), pending := 1 }

/-- An instance with a load in flight that still shows a previous error. -/
def cResolving : CObservable :=
  { error := some cCause, isAwake := true, isLoading := true, params := some 1,
    lastLoadedParams := some (LastLoaded.param 1), pending := 1 }

/-- An awake instance whose params equal its last-loaded params. -/
def cEqualParams : CObservable :=
  { data := some cNewRows, isAwake := true, params := some 1,
    lastLoadedParams := some (LastLoaded.param 1) }

/-! Claim theorems. -/

/-- Claim C4: the spec states that on success the completion steps run in
the order store data, clear error, clear loading flag, invoke callback,
dispatch the data event, so that the data event is never dispatched while
isLoading is still true or while error holds its pre-completion value.
The code instead dispatches the data event inside setData, before the
error and loading flag are cleared and before the callback runs: at a
concrete in-flight state carrying a previous error, the data event
snapshot observed by listeners shows isLoading true and the stale error,
even though the final state has isLoading false and no error. -/
theorem C4_data_event_dispatched_while_loading :
    (Observable.fetchResolve cTruthy true (some cNewRows) cResolving).2 =
      [Eff.event EvName.data ⟨some cNewRows, some cCause, true⟩,
       Eff.cbInvoke (some cNewRows)] ∧
    (Observable.fetchResolve cTruthy true (some cNewRows) cResolving).1.isLoading = false ∧
    (Observable.fetchResolve cTruthy true (some cNewRows) cResolving).1.error = none := by
  exact ⟨rfl, rfl, rfl⟩

/-- Claim C5: after the underlying call rejects, data retains its previous
value (the failure path does not modify data), error is set to the
rejection value, isLoading is false, and an error event is dispatched
whose listener-visible snapshot already shows the error and no loading. -/
theorem C5_reject_sets_error_keeps_data (s : Observable R P E) (err : E) :
    (Observable.fetchReject err s).1.data = s.data ∧
    (Observable.fetchReject err s).1.error = some err ∧
    (Observable.fetchReject err s).1.isLoading = false ∧
    (Observable.fetchReject err s).2 =
      [Eff.event EvName.error ⟨s.data, some err, false⟩] := by
  obtain ⟨d, er, aw, ld, lz, ps, llp, pd⟩ := s
  exact ⟨rfl, rfl, rfl, rfl⟩

/-- Claim C6: after the underlying call resolves, error is cleared to
undefined, data is replaced by the data field of the resolved result, and
isLoading is false. -/
theorem C6_resolve_clears_error_replaces_data (truthy : R → Bool) (hasCb : Bool)
    (res : Option R) (s : Observable R P E) :
    (Observable.fetchResolve truthy hasCb res s).1.error = none ∧
    (Observable.fetchResolve truthy hasCb res s).1.data = res ∧
    (Observable.fetchResolve truthy hasCb res s).1.isLoading = false := by
  obtain ⟨d, er, aw, ld, lz, ps, llp, pd⟩ := s
  exact ⟨rfl, rfl, rfl⟩

/-- Claim C10: the synchronous part of refetch leaves isLoading, error,
isAwake and data unchanged and dispatches no event at all (in particular
no loading event), records the current params as lastLoadedParams, and
issues the underlying call; a later load with reload false therefore
produces no effects (no underlying call and no event), whether or not the
refetch has completed and even when the refetch was the only fetch ever
issued. -/
theorem C10_refetch_is_silent_and_marks_params [DecidableEq P] (truthy : R → Bool)
    (c2 : Bool) (s : Observable R P E) :
    (Observable.refetch s).1.isLoading = s.isLoading ∧
    (Observable.refetch s).1.error = s.error ∧
    (Observable.refetch s).1.isAwake = s.isAwake ∧
    (Observable.refetch s).1.data = s.data ∧
    (Observable.refetch s).1.lastLoadedParams = s.params.map LastLoaded.param ∧
    eventNames (Observable.refetch s).2 = [] ∧
    callsOf (Observable.refetch s).2 = [s.params] ∧
    (Observable.load truthy false c2 (Observable.refetch s).1).2 = [] := by
  obtain ⟨d, er, aw, ld, lz, ps, llp, pd⟩ := s
  refine ⟨rfl, rfl, rfl, rfl, rfl, rfl, rfl, ?_⟩
  cases ld <;> cases ps <;>
    simp [Observable.load, Observable.refetch, Observable.fetch,
      paramsEq, isMocking]

/-- Claim C1: starting from any state with no load in flight and not
mocking, a first load call that proceeds (forced, or with params differing
from the last loaded ones) issues exactly one underlying call, and a
second load call with reload false and params unchanged since that first
load produces no effects at all, whether it is made while the first call
is still in flight, after it resolved, or after it rejected: exactly one
underlying call is issued for the pair. -/
theorem C1_load_twice_one_call [DecidableEq P] (truthy : R → Bool)
    (s0 : Observable R P E) (r1 c1 c2 : Bool) (res : Option R) (hcb : Bool) (err : E)
    (hnl : s0.isLoading = false)
    (hnm : isMocking s0.lastLoadedParams = false)
    (hfire : r1 = true ∨ paramsEq s0.params s0.lastLoadedParams = false) :
    callsOf (Observable.load truthy r1 c1 s0).2 = [s0.params] ∧
    (Observable.load truthy false c2 (Observable.load truthy r1 c1 s0).1).2 = [] ∧
    (Observable.load truthy false c2
      (Observable.fetchResolve truthy hcb res
        (Observable.load truthy r1 c1 s0).1).1).2 = [] ∧
    (Observable.load truthy false c2
      (Observable.fetchReject err (Observable.load truthy r1 c1 s0).1).1).2 = [] := by
  obtain ⟨d, er, aw, ld, lz, ps, llp, pd⟩ := s0
  replace hnl : ld = false := hnl
  replace hnm : isMocking llp = false := hnm
  subst hnl
  rcases hfire with rfl | hp
  · simp [Observable.load, Observable.fetch, Observable.fetchResolve,
      Observable.fetchReject, Observable.setData, Observable.meta, callsOf,
      paramsEq_map_param, isMocking_map_param, hnm, ite_self]
  · replace hp : paramsEq ps llp = false := hp
    simp [Observable.load, Observable.fetch, Observable.fetchResolve,
      Observable.fetchReject, Observable.setData, Observable.meta, callsOf,
      paramsEq_map_param, isMocking_map_param, hnm, hp, ite_self]

/-- Witness for claim C1 at a fresh instance with params set. -/
theorem C1_witness :
    cFreshParams.isLoading = false ∧
    isMocking cFreshParams.lastLoadedParams = false ∧
    paramsEq cFreshParams.params cFreshParams.lastLoadedParams = false ∧
    callsOf (Observable.load cTruthy false false cFreshParams).2 = [some 1] ∧
    (Observable.load cTruthy false false
      (Observable.load cTruthy false false cFreshParams).1).2 = [] ∧
    (Observable.load cTruthy false false
      (Observable.fetchResolve cTruthy false (some cNewRows)
        (Observable.load cTruthy false false cFreshParams).1).1).2 = [] ∧
    (Observable.load cTruthy false false
      (Observable.fetchReject cCause
        (Observable.load cTruthy false false cFreshParams).1).1).2 = [] :=
  ⟨rfl, rfl, rfl,
    (C1_load_twice_one_call cTruthy cFreshParams false false false (some cNewRows)
      false cCause rfl rfl (Or.inr rfl)).1,
    (C1_load_twice_one_call cTruthy cFreshParams false false false (some cNewRows)
      false cCause rfl rfl (Or.inr rfl)).2.1,
    (C1_load_twice_one_call cTruthy cFreshParams false false false (some cNewRows)
      false cCause rfl rfl (Or.inr rfl)).2.2.1,
    (C1_load_twice_one_call cTruthy cFreshParams false false false (some cNewRows)
      false cCause rfl rfl (Or.inr rfl)).2.2.2⟩

/-- Counterexample to claim C2 as stated: with a load in flight
(isLoading true, one pending call), calling refetch issues a second
underlying call, so two calls are then in flight; an operation of the
instance can start a second underlying call while isLoading is true. -/
theorem C2_counterexample :
    cLoading.isLoading = true ∧
    callsOf (Observable.refetch cLoading).2 = [some 2] ∧
    (Observable.refetch cLoading).1.pending = 2 :=
  ⟨rfl, rfl, rfl⟩

/-- Claim C2 amended: a load call issued while a load is in flight is
dropped, not queued: while isLoading is true, load returns with the state
unchanged and no effects, so load can never start a second underlying
call; refetch, however, bypasses the loading guard and can issue a
concurrent call. -/
theorem C2_load_dropped_while_loading [DecidableEq P] (truthy : R → Bool)
    (r c : Bool) (s : Observable R P E) (h : s.isLoading = true) :
    Observable.load truthy r c s = (s, []) := by
  simp [Observable.load, h]

/-- Witness for the amended claim C2 at an in-flight state. -/
theorem C2_witness :
    cLoading.isLoading = true ∧
    Observable.load cTruthy true false cLoading = (cLoading, []) :=
  ⟨rfl, C2_load_dropped_while_loading cTruthy true false cLoading rfl⟩

/-- Counterexample to claim C3 as stated: in the sequence of two
immediately consecutive forced loads from a fresh instance with params
set, the first issues one underlying call but the second issues none (it
is dropped by the in-flight guard), so not every load with reload true in
every sequence issues a new underlying call. -/
theorem C3_counterexample :
    callsOf (Observable.load cTruthy true false cFreshParams).2 = [some 1] ∧
    callsOf (Observable.load cTruthy true false
      (Observable.load cTruthy true false cFreshParams).1).2 = [] :=
  ⟨rfl, rfl⟩

/-- Claim C3 amended: every load call with reload true made while no load
is in flight and the instance is not mocking issues exactly one new
underlying call, regardless of whether params equals lastLoadedParams. -/
theorem C3_forced_load_always_calls [DecidableEq P] (truthy : R → Bool) (c : Bool)
    (s : Observable R P E) (hnl : s.isLoading = false)
    (hnm : isMocking s.lastLoadedParams = false) :
    callsOf (Observable.load truthy true c s).2 = [s.params] := by
  obtain ⟨d, er, aw, ld, lz, ps, llp, pd⟩ := s
  replace hnl : ld = false := hnl
  replace hnm : isMocking llp = false := hnm
  subst hnl
  simp [Observable.load, Observable.fetch, Observable.meta, callsOf, hnm]

/-- Witness for the amended claim C3 at a state whose params equal its
last loaded params, showing the call is issued regardless of equality. -/
theorem C3_witness :
    cEqualParams.isLoading = false ∧
    isMocking cEqualParams.lastLoadedParams = false ∧
    paramsEq cEqualParams.params cEqualParams.lastLoadedParams = true ∧
    callsOf (Observable.load cTruthy true false cEqualParams).2 = [some 1] :=
  ⟨rfl, rfl, rfl, C3_forced_load_always_calls cTruthy false cEqualParams rfl rfl⟩

/-- Claim C7: the ensured accessor throws whenever the instance is not
awake, and throws whenever the data slot is not truthy, and otherwise
returns the very same instance with no state modified; in particular
after a successful load resolving with truthy data the instance is awake
with that data, so ensured returns it unchanged. -/
theorem C7_ensured_guards (truthy : R → Bool) (s : Observable R P E)
    (res : Option R) (hcb : Bool) (hres : isTruthy truthy res = true) :
    Observable.ensured truthy s =
      (if s.isAwake = false then Except.error msgNotAwake
       else if isTruthy truthy s.data = false then Except.error msgNotReady
       else Except.ok s) ∧
    Observable.ensured truthy (Observable.fetchResolve truthy hcb res s).1 =
      Except.ok (Observable.fetchResolve truthy hcb res s).1 := by
  obtain ⟨d, er, aw, ld, lz, ps, llp, pd⟩ := s
  constructor
  · cases aw
    · simp [Observable.ensured]
    · cases h : isTruthy truthy d <;> simp [Observable.ensured, h]
  · simp [Observable.ensured, Observable.fetchResolve, Observable.setData,
      Observable.meta, hres]

/-- Witness for claim C7: on a fresh not-awake instance ensured throws,
and after a successful resolve with rows it returns the instance. -/
theorem C7_witness :
    isTruthy cTruthy (some cNewRows) = true ∧
    (Observable.ensured cTruthy cFreshParams =
      (if cFreshParams.isAwake = false then Except.error msgNotAwake
       else if isTruthy cTruthy cFreshParams.data = false then Except.error msgNotReady
       else Except.ok cFreshParams) ∧
     Observable.ensured cTruthy
       (Observable.fetchResolve cTruthy false (some cNewRows) cFreshParams).1 =
       Except.ok (Observable.fetchResolve cTruthy false (some cNewRows) cFreshParams).1) :=
  ⟨rfl, C7_ensured_guards cTruthy cFreshParams (some cNewRows) false rfl⟩

/-- Claim C8: setData with truthy data on a fresh never-loaded instance
sets isAwake, stores the data, and synchronously dispatches a data event
(whose snapshot already shows the stored data); and the awake mark is set
only for truthy data: with a falsy argument isAwake is left unchanged. -/
theorem C8_setData_awakens (truthy : R → Bool) (d e : Option R)
    (s : Observable R P E) (hd : isTruthy truthy d = true)
    (he : isTruthy truthy e = false) :
    (Observable.setData truthy d (Observable.fresh : Observable R P E)).1.isAwake = true ∧
    (Observable.setData truthy d (Observable.fresh : Observable R P E)).1.data = d ∧
    (Observable.setData truthy d (Observable.fresh : Observable R P E)).2 =
      [Eff.event EvName.data ⟨d, none, false⟩] ∧
    (Observable.setData truthy e s).1.isAwake = s.isAwake := by
  obtain ⟨dd, er, aw, ld, lz, ps, llp, pd⟩ := s
  simp [Observable.setData, Observable.fresh, Observable.meta, hd, he]

/-- Witness for claim C8 at the concrete row data. -/
theorem C8_witness :
    isTruthy cTruthy (some cNewRows) = true ∧
    isTruthy cTruthy (none : Option (List Row)) = false ∧
    (Observable.setData cTruthy (some cNewRows) (Observable.fresh : CObservable)).1.isAwake = true ∧
    (Observable.setData cTruthy (some cNewRows) (Observable.fresh : CObservable)).1.data = some cNewRows ∧
    (Observable.setData cTruthy (some cNewRows) (Observable.fresh : CObservable)).2 =
      [Eff.event EvName.data ⟨some cNewRows, none, false⟩] ∧
    (Observable.setData cTruthy none cLoading).1.isAwake = cLoading.isAwake :=
  ⟨rfl, rfl,
    (C8_setData_awakens cTruthy (some cNewRows) none cLoading rfl rfl).1,
    (C8_setData_awakens cTruthy (some cNewRows) none cLoading rfl rfl).2.1,
    (C8_setData_awakens cTruthy (some cNewRows) none cLoading rfl rfl).2.2.1,
    (C8_setData_awakens cTruthy (some cNewRows) none cLoading rfl rfl).2.2.2⟩

/-- Claim C9: updateObservable throws exactly when the name is not
registered: for any registry in which the name resolves to an instance it
returns normally with setData applied to that instance, and for any
registry in which the name resolves to nothing it throws the descriptive
error. -/
theorem C9_updateObservable_registry (truthy : R → Bool)
    (reg reg2 : List (String × Observable R P E)) (nm nm2 : String)
    (d : Option R) (s : Observable R P E)
    (hs : lookupNamed reg nm = some s)
    (hn : lookupNamed reg2 nm2 = none) :
    updateObservable truthy reg nm d =
      Except.ok
        (reg.map (fun e => if e.1 = nm then (e.1, (Observable.setData truthy d s).1) else e),
         (Observable.setData truthy d s).2) ∧
    updateObservable truthy reg2 nm2 d = Except.error (nm2 ++ msgNotRegistered) := by
  constructor
  · simp [updateObservable, hs]
  · simp [updateObservable, hn]

/-- The name under which the concrete witness registry holds an instance. -/
def cRegName : String := "rows"

/-- A name not present in the concrete witness registry. -/
def cOtherName : String := "other"

/-- The concrete witness registry with a single registered instance. -/
def creg : List (String × CObservable) := [(cRegName, cEqualParams)]

/-- Witness for claim C9 at a one-entry registry. -/
theorem C9_witness :
    lookupNamed creg cRegName = some cEqualParams ∧
    lookupNamed creg cOtherName = none ∧
    updateObservable cTruthy creg cRegName (some cNewRows) =
      Except.ok
        ([(cRegName, (Observable.setData cTruthy (some cNewRows) cEqualParams).1)],
         (Observable.setData cTruthy (some cNewRows) cEqualParams).2) ∧
    updateObservable cTruthy creg cOtherName (some cNewRows) =
      Except.error (cOtherName ++ msgNotRegistered) :=
  ⟨rfl, rfl,
    (C9_updateObservable_registry cTruthy creg creg cRegName cOtherName
      (some cNewRows) cEqualParams rfl rfl).1,
    (C9_updateObservable_registry cTruthy creg creg cRegName cOtherName
      (some cNewRows) cEqualParams rfl rfl).2⟩

end ObservablePlayground
